import Mathlib

/-!
Verification of the SmartStay hotel pricing engine
(src/smartstay-hotel-pricing/model.py, class PricingOptimizer).

The Python code is embedded shallowly over the rationals: every float
operation of the source is exact decimal arithmetic here, and the Python
builtin round (banker's rounding, half to even) is modelled by pyRound.
All definitions mirror the source line by line; theorems about the spec
claims follow at the end of the file.
-/

namespace SmartStay

/-- Python builtin round to the nearest integer, ties to even
(banker's rounding), on exact rationals. -/
def pyRound (q : ℚ) : ℤ :=
  if q - (⌊q⌋ : ℚ) < 1/2 then ⌊q⌋
  else if 1/2 < q - (⌊q⌋ : ℚ) then ⌊q⌋ + 1
  else if ⌊q⌋ % 2 = 0 then ⌊q⌋ else ⌊q⌋ + 1

/-- Python round(x, 2): round to two decimal places, ties to even. -/
def round2 (q : ℚ) : ℚ := (pyRound (q * 100) : ℚ) / 100

/-- PricingOptimizer.base_price, set in init. -/
def base_price : ℚ := 100

/-- PricingOptimizer.price_elasticity, set in init. -/
def price_elasticity : ℚ := -1.8

/-- PricingOptimizer.min_price, set in init. -/
def min_price : ℚ := 50

/-- PricingOptimizer.max_price, set in init. -/
def max_price : ℚ := 400

/-- Base price after the hotel-type adjustment: Resort multiplies by 1.2,
City multiplies by 1.0, anything else leaves it unchanged. -/
def hotelBase (hotel_type : String) : ℚ :=
  if hotel_type = "Resort" then base_price * 1.2
  else if hotel_type = "City" then base_price * 1.0
  else base_price

/-- room_multipliers.get(room_type, 1.0): the fixed table with default 1.0. -/
def roomMultiplier (room_type : String) : ℚ :=
  if room_type = "Standard" then 1.0
  else if room_type = "Deluxe" then 1.3
  else if room_type = "Suite" then 1.7
  else if room_type = "Presidential" then 2.5
  else 1.0

/-- base_price after hotel-type and room-type adjustments (steps preceding
the demand multiplier in calculate_optimal_price). -/
def basePrice (hotel_type room_type : String) : ℚ :=
  hotelBase hotel_type * roomMultiplier room_type

/-- The demand-based multiplier of calculate_optimal_price: three piecewise
branches on demand_confidence. -/
def demandMultiplier (demand_confidence : ℚ) : ℚ :=
  if demand_confidence > 0.8 then 1.5 + (demand_confidence - 0.8) * 2.5
  else if demand_confidence > 0.5 then 1.0 + (demand_confidence - 0.5) * 1.0
  else 0.7 + demand_confidence * 0.6

/-- The competition adjustment of calculate_optimal_price, as a function of
the competition ratio competition_price / base_price. -/
def competitionAdjustment (crat : ℚ) : ℚ :=
  if crat < 0.8 then 1.15
  else if crat > 1.2 then 0.95
  else 1.0 + (crat - 1.0) * 0.1

/-- The season adjustment of calculate_optimal_price. -/
def seasonAdjustment (season_factor : ℚ) : ℚ :=
  0.8 + season_factor * 0.7

/-- PricingOptimizer.apply_psychological_pricing. -/
def applyPsychologicalPricing (price : ℚ) : ℚ :=
  if price ≥ 300 then (pyRound (price - 1) : ℚ) + 0.99
  else if price ≥ 100 then (pyRound (price - 1) : ℚ) + 0.99
  else if price ≥ 50 then round2 (price - 0.05)
  else round2 price

/-- PricingOptimizer.get_pricing_strategy. -/
def getPricingStrategy (demand_confidence crat : ℚ) : String :=
  if demand_confidence > 0.8 ∧ crat < 1.0 then "Premium Positioning"
  else if demand_confidence > 0.6 ∧ crat ≤ 1.2 then "Market Leadership"
  else if demand_confidence > 0.4 then "Competitive Matching"
  else "Value Positioning"

/-- The record returned by calculate_optimal_price. -/
structure PricingResult where
  optimal_price : ℚ
  base_price : ℚ
  demand_multiplier : ℚ
  competition_adjustment : ℚ
  season_adjustment : ℚ
  room_multiplier : ℚ
  pricing_strategy : String
deriving DecidableEq, Repr

/-- The raw price before psychological rounding and clamping: product of
the adjusted base price and the three multiplicative adjustments. -/
def rawPrice (demand_confidence competition_price season_factor : ℚ)
    (hotel_type room_type : String) : ℚ :=
  basePrice hotel_type room_type * demandMultiplier demand_confidence *
    competitionAdjustment (competition_price / basePrice hotel_type room_type) *
    seasonAdjustment season_factor

/-- PricingOptimizer.calculate_optimal_price. -/
def calculateOptimalPrice (demand_confidence competition_price : ℚ)
    (season_factor : ℚ) (hotel_type room_type : String) : PricingResult :=
  let base := basePrice hotel_type room_type
  let dm := demandMultiplier demand_confidence
  let crat := competition_price / base
  let ca := competitionAdjustment crat
  let sa := seasonAdjustment season_factor
  let optimal0 := base * dm * ca * sa
  let optimal1 := applyPsychologicalPricing optimal0
  let optimal2 := max min_price (min max_price optimal1)
  { optimal_price := round2 optimal2
    base_price := round2 base
    demand_multiplier := round2 dm
    competition_adjustment := round2 ca
    season_adjustment := round2 sa
    room_multiplier := roomMultiplier room_type
    pricing_strategy := getPricingStrategy demand_confidence crat }

/-- PricingOptimizer.estimate_occupancy. -/
def estimateOccupancy (price demand_confidence : ℚ) (base_occupancy : ℚ) : ℚ :=
  let pratio := price / base_price
  let price_effect := price_elasticity * (pratio - 1)
  let demand_effect := (demand_confidence - 0.5) * 0.4
  let occupancy := base_occupancy * (1 + price_effect + demand_effect)
  max 0.1 (min 0.95 occupancy)

/-- PricingOptimizer.calculate_revenue. -/
def calculateRevenue (price occupancy total_rooms : ℚ) : ℚ :=
  price * occupancy * total_rooms

/-- Stated from the claim text for estimate_occupancy, independently of the
source: base_occupancy times (1 + price_elasticity times (price over
base_price minus 1) plus (demand_confidence minus 0.5) times 0.4), clamped
to the interval from 0.1 to 0.95, with base_price 100 and elasticity -1.8. -/
def estimateOccupancySpec (price demand_confidence base_occupancy : ℚ) : ℚ :=
  max 0.1 (min 0.95
    (base_occupancy * (1 + (-1.8) * (price / 100 - 1) + (demand_confidence - 0.5) * 0.4)))

/-! ## Properties of the rounding primitives -/

theorem pyRound_intCast (n : ℤ) : pyRound (n : ℚ) = n := by
  simp [pyRound]

theorem floor_le_pyRound (q : ℚ) : ⌊q⌋ ≤ pyRound q := by
  unfold pyRound
  split_ifs <;> omega

theorem pyRound_le_ceil (q : ℚ) : pyRound q ≤ ⌈q⌉ := by
  have h1 : ⌊q⌋ ≤ ⌈q⌉ := Int.floor_le_ceil q
  unfold pyRound
  split_ifs with a b c
  · omega
  · have : ⌊q⌋ < ⌈q⌉ := Int.lt_ceil.mpr (by linarith)
    omega
  · omega
  · rw [not_lt] at a
    have : ⌊q⌋ < ⌈q⌉ := Int.lt_ceil.mpr (by linarith)
    omega

theorem pyRound_le (q : ℚ) : (pyRound q : ℚ) ≤ q + 1/2 := by
  have h3 : (⌊q⌋ : ℚ) ≤ q := Int.floor_le q
  unfold pyRound
  split_ifs with a b c <;> push_cast <;> linarith

theorem le_pyRound (q : ℚ) : q - 1/2 ≤ (pyRound q : ℚ) := by
  have h4 : q < (⌊q⌋ : ℚ) + 1 := Int.lt_floor_add_one q
  have h3 : (⌊q⌋ : ℚ) ≤ q := Int.floor_le q
  unfold pyRound
  split_ifs with a b c <;> push_cast <;> linarith

theorem pyRound_mono {x y : ℚ} (h : x ≤ y) : pyRound x ≤ pyRound y := by
  rcases lt_or_le ⌊x⌋ ⌊y⌋ with hf | hf
  · have h1 := pyRound_le_ceil x
    have h2 := Int.ceil_le_floor_add_one x
    have h3 := floor_le_pyRound y
    omega
  · have hfe : ⌊x⌋ = ⌊y⌋ := le_antisymm (Int.floor_le_floor h) hf
    have hq : ((⌊x⌋ : ℤ) : ℚ) = ((⌊y⌋ : ℤ) : ℚ) := by rw [hfe]
    unfold pyRound
    split_ifs <;> first
      | omega
      | (exfalso; simp only [not_lt] at *; linarith)

theorem round2_le (q : ℚ) : round2 q ≤ q + 1/200 := by
  unfold round2
  have h := pyRound_le (q * 100)
  rw [div_le_iff (by norm_num : (0:ℚ) < 100)]
  linarith

theorem le_round2 (q : ℚ) : q - 1/200 ≤ round2 q := by
  unfold round2
  have h := le_pyRound (q * 100)
  rw [le_div_iff (by norm_num : (0:ℚ) < 100)]
  linarith

theorem round2_mono {x y : ℚ} (h : x ≤ y) : round2 x ≤ round2 y := by
  unfold round2
  have h2 : pyRound (x * 100) ≤ pyRound (y * 100) :=
    pyRound_mono (mul_le_mul_of_nonneg_right h (by norm_num))
  have h3 : (pyRound (x * 100) : ℚ) ≤ (pyRound (y * 100) : ℚ) := by exact_mod_cast h2
  rw [div_le_div_iff (by norm_num : (0:ℚ) < 100) (by norm_num : (0:ℚ) < 100)]
  linarith

theorem int_le_round2 {n : ℤ} {q : ℚ} (h : (n : ℚ) ≤ q) : (n : ℚ) ≤ round2 q := by
  unfold round2
  have h1 : 100 * n ≤ ⌊q * 100⌋ := Int.le_floor.mpr (by push_cast; linarith)
  have h2 := floor_le_pyRound (q * 100)
  rw [le_div_iff (by norm_num : (0:ℚ) < 100)]
  have h3 : ((100 * n : ℤ) : ℚ) ≤ (pyRound (q * 100) : ℚ) := by
    exact_mod_cast le_trans h1 h2
  push_cast at h3
  linarith

theorem round2_le_int {n : ℤ} {q : ℚ} (h : q ≤ (n : ℚ)) : round2 q ≤ (n : ℚ) := by
  unfold round2
  have h1 : ⌈q * 100⌉ ≤ 100 * n := Int.ceil_le.mpr (by push_cast; linarith)
  have h2 := pyRound_le_ceil (q * 100)
  rw [div_le_iff (by norm_num : (0:ℚ) < 100)]
  have h3 : (pyRound (q * 100) : ℚ) ≤ ((100 * n : ℤ) : ℚ) := by
    exact_mod_cast le_trans h2 h1
  push_cast at h3
  linarith

theorem round2_div_cast (k : ℤ) : round2 ((k : ℚ) / 100) = (k : ℚ) / 100 := by
  unfold round2
  have h : ((k : ℚ) / 100) * 100 = (k : ℚ) := by field_simp
  rw [h, pyRound_intCast]

/-! ## Bounds on the individual pricing factors -/

theorem hotelBase_ge (ht : String) : 100 ≤ hotelBase ht := by
  unfold hotelBase
  split_ifs <;> norm_num [base_price]

theorem roomMultiplier_ge_one (rt : String) : 1 ≤ roomMultiplier rt := by
  unfold roomMultiplier
  split_ifs <;> norm_num

theorem basePrice_ge (ht rt : String) : 100 ≤ basePrice ht rt := by
  have h1 := hotelBase_ge ht
  have h2 := roomMultiplier_ge_one rt
  unfold basePrice
  nlinarith

theorem demandMultiplier_ge {dc : ℚ} (h0 : 0 ≤ dc) : 7/10 ≤ demandMultiplier dc := by
  unfold demandMultiplier
  split_ifs <;> linarith

theorem demandMultiplier_mono {x y : ℚ} (h : x ≤ y) :
    demandMultiplier x ≤ demandMultiplier y := by
  unfold demandMultiplier
  split_ifs <;> linarith

theorem competitionAdjustment_bounds (c : ℚ) :
    19/20 ≤ competitionAdjustment c ∧ competitionAdjustment c ≤ 23/20 := by
  unfold competitionAdjustment
  split_ifs <;> constructor <;> linarith

theorem seasonAdjustment_ge {sf : ℚ} (hsf : 0 ≤ sf) : 4/5 ≤ seasonAdjustment sf := by
  have h := mul_nonneg hsf (by norm_num : (0:ℚ) ≤ 0.7)
  unfold seasonAdjustment
  linarith

/-! ## Properties of the psychological-pricing step -/

theorem psych_frac {p : ℚ} (h : 100 ≤ p) :
    applyPsychologicalPricing p = (pyRound (p - 1) : ℚ) + 0.99 := by
  unfold applyPsychologicalPricing
  rcases le_or_lt 300 p with h3 | h3
  · rw [if_pos h3]
  · rw [if_neg (not_le.mpr h3), if_pos h]

theorem psych_eq_mid {p : ℚ} (h1 : 50 ≤ p) (h2 : p < 100) :
    applyPsychologicalPricing p = round2 (p - 0.05) := by
  unfold applyPsychologicalPricing
  rw [if_neg (not_le.mpr (by linarith)), if_neg (not_le.mpr h2), if_pos h1]

theorem psych_eq_low {p : ℚ} (h : p < 50) :
    applyPsychologicalPricing p = round2 p := by
  unfold applyPsychologicalPricing
  rw [if_neg (not_le.mpr (by linarith)), if_neg (not_le.mpr (by linarith)),
    if_neg (not_le.mpr h)]

theorem psych_le (p : ℚ) : applyPsychologicalPricing p ≤ p + 1/2 := by
  unfold applyPsychologicalPricing
  split_ifs with a b c
  · linarith [pyRound_le (p - 1)]
  · linarith [pyRound_le (p - 1)]
  · linarith [round2_le (p - 0.05)]
  · linarith [round2_le p]

theorem le_psych (p : ℚ) : p - 51/100 ≤ applyPsychologicalPricing p := by
  unfold applyPsychologicalPricing
  split_ifs with a b c
  · linarith [le_pyRound (p - 1)]
  · linarith [le_pyRound (p - 1)]
  · linarith [le_round2 (p - 0.05)]
  · linarith [le_round2 p]

theorem psych_lt_psych {p q : ℚ} (h : p + 2 ≤ q) :
    applyPsychologicalPricing p < applyPsychologicalPricing q := by
  linarith [psych_le p, le_psych q]

theorem psych_le_of_lt_50 {p : ℚ} (h : p < 50) : applyPsychologicalPricing p ≤ 50 := by
  rw [psych_eq_low h]
  have h2 : round2 p ≤ ((50 : ℤ) : ℚ) := round2_le_int (by push_cast; linarith)
  push_cast at h2
  linarith

theorem psych_ge_of_ge_100 {p : ℚ} (h : 100 ≤ p) :
    9999/100 ≤ applyPsychologicalPricing p := by
  rw [psych_frac h]
  have h99 : (99 : ℤ) ≤ ⌊p - 1⌋ := Int.le_floor.mpr (by push_cast; linarith)
  have h2 := floor_le_pyRound (p - 1)
  have h3 : ((99 : ℤ) : ℚ) ≤ (pyRound (p - 1) : ℚ) := by exact_mod_cast le_trans h99 h2
  push_cast at h3
  linarith

theorem psych_shape (p : ℚ) :
    ∃ k : ℤ, applyPsychologicalPricing p = (k : ℚ) / 100 := by
  unfold applyPsychologicalPricing round2
  split_ifs with a b c
  · refine ⟨100 * pyRound (p - 1) + 99, ?_⟩
    push_cast
    rw [eq_div_iff (by norm_num : (100:ℚ) ≠ 0)]
    ring_nf
  · refine ⟨100 * pyRound (p - 1) + 99, ?_⟩
    push_cast
    rw [eq_div_iff (by norm_num : (100:ℚ) ≠ 0)]
    ring_nf
  · exact ⟨pyRound ((p - 0.05) * 100), rfl⟩
  · exact ⟨pyRound (p * 100), rfl⟩

theorem round2_psych (p : ℚ) :
    round2 (applyPsychologicalPricing p) = applyPsychologicalPricing p := by
  obtain ⟨k, hk⟩ := psych_shape p
  rw [hk, round2_div_cast]

/-- Monotonicity of the composition of psychological pricing with the final
clamp to the price band: although apply_psychological_pricing itself is not
monotone at the branch boundary 50, the clamp absorbs the defect. -/
theorem clamp_psych_mono {p q : ℚ} (h : p ≤ q) :
    max 50 (min 400 (applyPsychologicalPricing p)) ≤
      max 50 (min 400 (applyPsychologicalPricing q)) := by
  rcases lt_or_le p 50 with hp | hp
  · have hv : applyPsychologicalPricing p ≤ 50 := psych_le_of_lt_50 hp
    have hL : max 50 (min 400 (applyPsychologicalPricing p)) = 50 :=
      max_eq_left (le_trans (min_le_right _ _) hv)
    rw [hL]
    exact le_max_left _ _
  · rcases lt_or_le p 100 with hp2 | hp2
    · rcases lt_or_le q 100 with hq2 | hq2
      · have hq : 50 ≤ q := le_trans hp h
        rw [psych_eq_mid hp hp2, psych_eq_mid hq hq2]
        exact max_le_max le_rfl (min_le_min le_rfl (round2_mono (by linarith)))
      · have b1 : applyPsychologicalPricing p ≤ 9996/100 := by
          rw [psych_eq_mid hp hp2]
          have := round2_le (p - 0.05)
          linarith
        have b2 : 9999/100 ≤ applyPsychologicalPricing q := psych_ge_of_ge_100 hq2
        calc max 50 (min 400 (applyPsychologicalPricing p))
            ≤ max 50 (applyPsychologicalPricing p) :=
              max_le_max le_rfl (min_le_right _ _)
          _ ≤ 9996/100 := max_le (by norm_num) b1
          _ ≤ min 400 (applyPsychologicalPricing q) := le_min (by norm_num) (by linarith)
          _ ≤ max 50 (min 400 (applyPsychologicalPricing q)) := le_max_right _ _
    · have hq2 : (100:ℚ) ≤ q := le_trans hp2 h
      rw [psych_frac hp2, psych_frac hq2]
      have hm := pyRound_mono (show p - 1 ≤ q - 1 by linarith)
      have hc : (pyRound (p - 1) : ℚ) ≤ (pyRound (q - 1) : ℚ) := by exact_mod_cast hm
      exact max_le_max le_rfl (min_le_min le_rfl (by linarith))

/-! ## Separation of raw prices across room types -/

theorem raw_lb {B m d c s : ℚ} (hB : 100 ≤ B) (hm : 1 ≤ m) (hd : 7/10 ≤ d)
    (hc : 19/20 ≤ c) (hs : 4/5 ≤ s) : 53 ≤ B * m * d * c * s := by
  have t1 : (100:ℚ) * 1 ≤ B * m := mul_le_mul hB hm (by norm_num) (by linarith)
  have t2 : (100:ℚ) * (7/10) ≤ (B * m) * d :=
    mul_le_mul (by linarith) hd (by norm_num) (by linarith)
  have t3 : (70:ℚ) * (19/20) ≤ ((B * m) * d) * c :=
    mul_le_mul (by linarith) hc (by norm_num) (by linarith)
  have t4 : (133/2 : ℚ) * (4/5) ≤ (((B * m) * d) * c) * s :=
    mul_le_mul (by linarith) hs (by norm_num) (by linarith)
  linarith

theorem raw_sep {B m1 m2 c1 c2 d s : ℚ} (hB : 100 ≤ B) (hd : 7/10 ≤ d)
    (hs : 4/5 ≤ s) (hm1 : 0 ≤ m1) (hm2 : 0 ≤ m2)
    (hc1 : c1 ≤ 23/20) (hc2 : 19/20 ≤ c2)
    (hm : m1 * (23/20) + 17/200 ≤ m2 * (19/20)) :
    B * m1 * d * c1 * s + 2 ≤ B * m2 * d * c2 * s := by
  have e1 : m1 * c1 ≤ m1 * (23/20) := mul_le_mul_of_nonneg_left hc1 hm1
  have e2 : m2 * (19/20) ≤ m2 * c2 := mul_le_mul_of_nonneg_left hc2 hm2
  have hmc : m1 * c1 + 17/200 ≤ m2 * c2 := by linarith
  have k1 : (100:ℚ) * (7/10) ≤ B * d := mul_le_mul hB hd (by norm_num) (by linarith)
  have k2 : (70:ℚ) * (4/5) ≤ (B * d) * s :=
    mul_le_mul (by linarith) hs (by norm_num) (by linarith)
  have hK : 56 ≤ B * d * s := by linarith
  have key : (56:ℚ) * (17/200) ≤ (B * d * s) * (m2 * c2 - m1 * c1) :=
    mul_le_mul hK (by linarith) (by norm_num) (by linarith)
  nlinarith [key]

/-- One step of the room-type ordering: under the documented input ranges,
if the raw price of the more expensive room type stays below the 400 cap
after psychological rounding, its final price strictly exceeds the final
price of the cheaper room type, whose rounded raw price is then also below
the cap. -/
theorem room_step {dc cp sf : ℚ} {ht rt1 rt2 : String}
    (h0 : 0 ≤ dc) (hsf : 0 ≤ sf) (hm1 : 1 ≤ roomMultiplier rt1)
    (hm : roomMultiplier rt1 * (23/20) + 17/200 ≤ roomMultiplier rt2 * (19/20))
    (hcap : applyPsychologicalPricing (rawPrice dc cp sf ht rt2) < 400) :
    (calculateOptimalPrice dc cp sf ht rt1).optimal_price <
      (calculateOptimalPrice dc cp sf ht rt2).optimal_price ∧
    applyPsychologicalPricing (rawPrice dc cp sf ht rt1) < 400 := by
  have hB := hotelBase_ge ht
  have hd := demandMultiplier_ge h0
  have hs := seasonAdjustment_ge hsf
  have hc1 := competitionAdjustment_bounds (cp / basePrice ht rt1)
  have hc2 := competitionAdjustment_bounds (cp / basePrice ht rt2)
  have hgap : rawPrice dc cp sf ht rt1 + 2 ≤ rawPrice dc cp sf ht rt2 := by
    unfold rawPrice basePrice
    exact raw_sep hB hd hs (by linarith) (by linarith [roomMultiplier_ge_one rt2])
      hc1.2 hc2.1 hm
  have hlb : 53 ≤ rawPrice dc cp sf ht rt1 := by
    unfold rawPrice basePrice
    exact raw_lb hB hm1 hd hc1.1 hs
  have hpsy : applyPsychologicalPricing (rawPrice dc cp sf ht rt1) <
      applyPsychologicalPricing (rawPrice dc cp sf ht rt2) := psych_lt_psych hgap
  have hp1_50 : 50 < applyPsychologicalPricing (rawPrice dc cp sf ht rt1) := by
    have := le_psych (rawPrice dc cp sf ht rt1)
    linarith
  have hp2_50 : 50 < applyPsychologicalPricing (rawPrice dc cp sf ht rt2) :=
    lt_trans hp1_50 hpsy
  have hp1_400 : applyPsychologicalPricing (rawPrice dc cp sf ht rt1) < 400 :=
    lt_trans hpsy hcap
  have e1 : (calculateOptimalPrice dc cp sf ht rt1).optimal_price =
      round2 (max 50 (min 400 (applyPsychologicalPricing (rawPrice dc cp sf ht rt1)))) :=
    rfl
  have e2 : (calculateOptimalPrice dc cp sf ht rt2).optimal_price =
      round2 (max 50 (min 400 (applyPsychologicalPricing (rawPrice dc cp sf ht rt2)))) :=
    rfl
  rw [min_eq_right hp1_400.le, max_eq_right hp1_50.le, round2_psych] at e1
  rw [min_eq_right hcap.le, max_eq_right hp2_50.le, round2_psych] at e2
  rw [e1, e2]
  exact ⟨hpsy, hp1_400⟩

/-! ## Evaluation helpers for concrete inputs -/

theorem pyRound_eq_of_lt {q : ℚ} {n : ℤ} (hf : ⌊q⌋ = n) (h : q - (n : ℚ) < 1/2) :
    pyRound q = n := by
  unfold pyRound
  rw [hf, if_pos h]

theorem pyRound_eq_of_gt {q : ℚ} {n : ℤ} (hf : ⌊q⌋ = n) (h : 1/2 < q - (n : ℚ)) :
    pyRound q = n + 1 := by
  unfold pyRound
  rw [hf, if_neg (by linarith), if_pos h]

theorem pyRound_eq_tie_even {q : ℚ} {n : ℤ} (hf : ⌊q⌋ = n) (h : q - (n : ℚ) = 1/2)
    (he : n % 2 = 0) : pyRound q = n := by
  unfold pyRound
  rw [hf, if_neg (by rw [h]; norm_num), if_neg (by rw [h]; norm_num), if_pos he]

theorem pyRound_eq_tie_odd {q : ℚ} {n : ℤ} (hf : ⌊q⌋ = n) (h : q - (n : ℚ) = 1/2)
    (ho : n % 2 = 1) : pyRound q = n + 1 := by
  unfold pyRound
  rw [hf, if_neg (by rw [h]; norm_num), if_neg (by rw [h]; norm_num), if_neg (by omega)]

theorem round2_fix (q : ℚ) (k : ℤ) (h : q = (k : ℚ) / 100) : round2 q = q := by
  rw [h, round2_div_cast]

theorem round2_eq_of_lt {q : ℚ} {n : ℤ} (hf : ⌊q * 100⌋ = n)
    (h : q * 100 - (n : ℚ) < 1/2) : round2 q = (n : ℚ) / 100 := by
  unfold round2
  rw [pyRound_eq_of_lt hf h]

theorem round2_eq_of_gt {q : ℚ} {n : ℤ} (hf : ⌊q * 100⌋ = n)
    (h : 1/2 < q * 100 - (n : ℚ)) : round2 q = ((n : ℚ) + 1) / 100 := by
  unfold round2
  rw [pyRound_eq_of_gt hf h]
  push_cast
  ring

theorem psych_high_lt {p : ℚ} {n : ℤ} (hp : 100 ≤ p) (hf : ⌊p - 1⌋ = n)
    (h : p - 1 - (n : ℚ) < 1/2) : applyPsychologicalPricing p = (n : ℚ) + 0.99 := by
  rw [psych_frac hp, pyRound_eq_of_lt hf h]

theorem psych_high_gt {p : ℚ} {n : ℤ} (hp : 100 ≤ p) (hf : ⌊p - 1⌋ = n)
    (h : 1/2 < p - 1 - (n : ℚ)) :
    applyPsychologicalPricing p = (n : ℚ) + 1 + 0.99 := by
  rw [psych_frac hp, pyRound_eq_of_gt hf h]
  push_cast
  ring

theorem psych_high_tie_even {p : ℚ} {n : ℤ} (hp : 100 ≤ p) (hf : ⌊p - 1⌋ = n)
    (h : p - 1 - (n : ℚ) = 1/2) (he : n % 2 = 0) :
    applyPsychologicalPricing p = (n : ℚ) + 0.99 := by
  rw [psych_frac hp, pyRound_eq_tie_even hf h he]

theorem min_price_eq : min_price = 50 := rfl

theorem max_price_eq : max_price = 400 := rfl

theorem roomMultiplier_Standard : roomMultiplier "Standard" = 1 := by
  unfold roomMultiplier
  rw [if_pos rfl]
  norm_num

theorem roomMultiplier_Deluxe : roomMultiplier "Deluxe" = 1.3 := by
  simp [roomMultiplier]

theorem roomMultiplier_Suite : roomMultiplier "Suite" = 1.7 := by
  simp [roomMultiplier]

theorem roomMultiplier_Presidential : roomMultiplier "Presidential" = 2.5 := by
  simp [roomMultiplier]

/-- The returned optimal price, written through the named stages of the
pipeline; holds definitionally. -/
theorem optimal_price_def (dc cp sf : ℚ) (ht rt : String) :
    (calculateOptimalPrice dc cp sf ht rt).optimal_price =
      round2 (max min_price (min max_price
        (applyPsychologicalPricing (rawPrice dc cp sf ht rt)))) := rfl

/-- Skeleton for evaluating calculate_optimal_price at a concrete input from
evaluations of its components. -/
theorem calculateOptimalPrice_eq {dc cp sf : ℚ} {ht rt : String}
    {b d c s m psy fin : ℚ} {strat : String}
    (hb : basePrice ht rt = b)
    (hm : roomMultiplier rt = m)
    (hd : demandMultiplier dc = d)
    (hc : competitionAdjustment (cp / b) = c)
    (hs : seasonAdjustment sf = s)
    (hpsy : applyPsychologicalPricing (b * d * c * s) = psy)
    (hfin : round2 (max min_price (min max_price psy)) = fin)
    (hstrat : getPricingStrategy dc (cp / b) = strat) :
    calculateOptimalPrice dc cp sf ht rt =
      { optimal_price := fin, base_price := round2 b, demand_multiplier := round2 d,
        competition_adjustment := round2 c, season_adjustment := round2 s,
        room_multiplier := m, pricing_strategy := strat } := by
  simp only [calculateOptimalPrice]
  rw [hb, hm, hd, hc, hs, hpsy, hfin, hstrat]

/-! ## Component evaluations for the concrete scenarios -/

theorem scen1_base : basePrice "Resort" "Deluxe" = 156 := by
  simp [basePrice, hotelBase, roomMultiplier, base_price]
  norm_num

theorem scen1_dm : demandMultiplier 0.78 = 1.28 := by
  unfold demandMultiplier
  rw [if_neg (by norm_num), if_pos (by norm_num)]
  norm_num

theorem scen1_ca : competitionAdjustment (180 / (156:ℚ)) = 66/65 := by
  unfold competitionAdjustment
  rw [if_neg (by norm_num), if_neg (by norm_num)]
  norm_num

theorem scen1_sa : seasonAdjustment 1.2 = 1.64 := by
  unfold seasonAdjustment
  norm_num

theorem scen1_psych :
    applyPsychologicalPricing (156 * 1.28 * (66/65) * 1.64) = 332.99 := by
  have hval : (156:ℚ) * 1.28 * (66/65) * 1.64 = 1039104/3125 := by norm_num
  rw [hval, psych_high_gt (by norm_num)
    (show ⌊(1039104/3125:ℚ) - 1⌋ = 331 by rw [Int.floor_eq_iff] <;> norm_num)
    (by push_cast; norm_num)]
  norm_num

theorem scen1_fin :
    round2 (max min_price (min max_price (332.99:ℚ))) = 332.99 := by
  rw [min_price_eq, max_price_eq, min_eq_right (by norm_num), max_eq_right (by norm_num)]
  exact round2_fix 332.99 33299 (by norm_num)

theorem scen1_strat : getPricingStrategy 0.78 (180 / (156:ℚ)) = "Market Leadership" := by
  unfold getPricingStrategy
  rw [if_neg (by norm_num), if_pos (by norm_num)]

/-- Full evaluation of calculate_optimal_price on the concrete scenario of
the spec: demand_confidence 0.78, competition_price 180, season_factor 1.2,
Resort, Deluxe. -/
theorem scen1_eval :
    calculateOptimalPrice 0.78 180 1.2 "Resort" "Deluxe" =
      { optimal_price := 332.99, base_price := 156, demand_multiplier := 1.28,
        competition_adjustment := 1.02, season_adjustment := 1.64,
        room_multiplier := 1.3, pricing_strategy := "Market Leadership" } := by
  rw [calculateOptimalPrice_eq scen1_base roomMultiplier_Deluxe scen1_dm scen1_ca
    scen1_sa scen1_psych scen1_fin scen1_strat]
  have hr1 : round2 (156:ℚ) = 156 := round2_fix 156 15600 (by norm_num)
  have hr2 : round2 (1.28:ℚ) = 1.28 := round2_fix 1.28 128 (by norm_num)
  have hr3 : round2 ((66:ℚ)/65) = 1.02 := by
    rw [round2_eq_of_gt
      (show ⌊(66/65:ℚ) * 100⌋ = 101 by rw [Int.floor_eq_iff] <;> norm_num)
      (by push_cast; norm_num)]
    norm_num
  have hr4 : round2 (1.64:ℚ) = 1.64 := round2_fix 1.64 164 (by norm_num)
  rw [hr1, hr2, hr3, hr4]

/-- Clamp-and-round of a psychological price at or above the cap is 400. -/
theorem fin_cap {psy : ℚ} (h : 400 ≤ psy) :
    round2 (max min_price (min max_price psy)) = 400 := by
  rw [min_price_eq, max_price_eq, min_eq_left h, max_eq_right (by norm_num)]
  exact round2_fix 400 40000 (by norm_num)

/-- Evaluating only the returned optimal price from component values. -/
theorem optimal_price_eval {dc cp sf : ℚ} {ht rt : String} {b d c s psy fin : ℚ}
    (hb : basePrice ht rt = b) (hd : demandMultiplier dc = d)
    (hc : competitionAdjustment (cp / b) = c) (hs : seasonAdjustment sf = s)
    (hpsy : applyPsychologicalPricing (b * d * c * s) = psy)
    (hfin : round2 (max min_price (min max_price psy)) = fin) :
    (calculateOptimalPrice dc cp sf ht rt).optimal_price = fin := by
  rw [optimal_price_def]
  unfold rawPrice
  rw [hb, hd, hc, hs, hpsy, hfin]

/-- The returned competition adjustment field, definitionally. -/
theorem competition_adjustment_def (dc cp sf : ℚ) (ht rt : String) :
    (calculateOptimalPrice dc cp sf ht rt).competition_adjustment =
      round2 (competitionAdjustment (cp / basePrice ht rt)) := rfl

theorem scen5_base_suite : basePrice "Resort" "Suite" = 204 := by
  simp [basePrice, hotelBase, roomMultiplier, base_price]
  norm_num

theorem scen5_base_pres : basePrice "Resort" "Presidential" = 300 := by
  simp [basePrice, hotelBase, roomMultiplier, base_price]
  norm_num

theorem scen5_dm : demandMultiplier 1 = 2 := by
  unfold demandMultiplier
  rw [if_pos (by norm_num)]
  norm_num

theorem scen5_sa : seasonAdjustment 1 = 1.5 := by
  unfold seasonAdjustment
  norm_num

theorem scen5_suite_price :
    (calculateOptimalPrice 1 100 1 "Resort" "Suite").optimal_price = 400 := by
  have hc : competitionAdjustment (100 / (204:ℚ)) = 1.15 := by
    unfold competitionAdjustment
    rw [if_pos (by norm_num)]
  have hpsy : applyPsychologicalPricing (204 * 2 * 1.15 * 1.5) = 703.99 := by
    have hval : (204:ℚ) * 2 * 1.15 * 1.5 = 703.8 := by norm_num
    rw [hval, psych_high_gt (by norm_num)
      (show ⌊(703.8:ℚ) - 1⌋ = 702 by rw [Int.floor_eq_iff] <;> norm_num)
      (by push_cast; norm_num)]
    norm_num
  exact optimal_price_eval scen5_base_suite scen5_dm hc scen5_sa hpsy
    (fin_cap (by norm_num))

theorem scen5_pres_price :
    (calculateOptimalPrice 1 100 1 "Resort" "Presidential").optimal_price = 400 := by
  have hc : competitionAdjustment (100 / (300:ℚ)) = 1.15 := by
    unfold competitionAdjustment
    rw [if_pos (by norm_num)]
  have hpsy : applyPsychologicalPricing (300 * 2 * 1.15 * 1.5) = 1034.99 := by
    have hval : (300:ℚ) * 2 * 1.15 * 1.5 = 1035 := by norm_num
    rw [hval, psych_high_lt (by norm_num)
      (show ⌊(1035:ℚ) - 1⌋ = 1034 by rw [Int.floor_eq_iff] <;> norm_num)
      (by push_cast; norm_num)]
    push_cast
    norm_num
  exact optimal_price_eval scen5_base_pres scen5_dm hc scen5_sa hpsy
    (fin_cap (by norm_num))

theorem scenW_base : basePrice "City" "Presidential" = 250 := by
  simp [basePrice, hotelBase, roomMultiplier, base_price]
  norm_num

theorem scenW_dm : demandMultiplier 0.3 = 0.88 := by
  unfold demandMultiplier
  rw [if_neg (by norm_num), if_neg (by norm_num)]
  norm_num

theorem scenW_pres_price :
    (calculateOptimalPrice 0.3 100 1 "City" "Presidential").optimal_price = 378.99 := by
  have hc : competitionAdjustment (100 / (250:ℚ)) = 1.15 := by
    unfold competitionAdjustment
    rw [if_pos (by norm_num)]
  have hpsy : applyPsychologicalPricing (250 * 0.88 * 1.15 * 1.5) = 378.99 := by
    have hval : (250:ℚ) * 0.88 * 1.15 * 1.5 = 379.5 := by norm_num
    rw [hval, psych_high_tie_even (by norm_num)
      (show ⌊(379.5:ℚ) - 1⌋ = 378 by rw [Int.floor_eq_iff] <;> norm_num)
      (by push_cast; norm_num) (by norm_num)]
    norm_num
  have hfin : round2 (max min_price (min max_price (378.99:ℚ))) = 378.99 := by
    rw [min_price_eq, max_price_eq, min_eq_right (by norm_num),
      max_eq_right (by norm_num)]
    exact round2_fix 378.99 37899 (by norm_num)
  exact optimal_price_eval scenW_base scenW_dm hc scen5_sa hpsy hfin

theorem scen7_base : basePrice "City" "Standard" = 100 := by
  simp [basePrice, hotelBase, roomMultiplier, base_price]
  norm_num

theorem scen7_dm : demandMultiplier 0.7 = 1.2 := by
  unfold demandMultiplier
  rw [if_neg (by norm_num), if_pos (by norm_num)]
  norm_num

/-- Full evaluation of calculate_optimal_price at the invalid competition
price -50: the code performs no validation and returns an ordinary record. -/
theorem scen7_eval :
    calculateOptimalPrice 0.7 (-50) 1 "City" "Standard" =
      { optimal_price := 206.99, base_price := 100, demand_multiplier := 1.2,
        competition_adjustment := 1.15, season_adjustment := 1.5,
        room_multiplier := 1, pricing_strategy := "Market Leadership" } := by
  have hc : competitionAdjustment (-50 / (100:ℚ)) = 1.15 := by
    unfold competitionAdjustment
    rw [if_pos (by norm_num)]
  have hpsy : applyPsychologicalPricing (100 * 1.2 * 1.15 * 1.5) = 206.99 := by
    have hval : (100:ℚ) * 1.2 * 1.15 * 1.5 = 207 := by norm_num
    rw [hval, psych_high_lt (by norm_num)
      (show ⌊(207:ℚ) - 1⌋ = 206 by rw [Int.floor_eq_iff] <;> norm_num)
      (by push_cast; norm_num)]
    push_cast
    norm_num
  have hfin : round2 (max min_price (min max_price (206.99:ℚ))) = 206.99 := by
    rw [min_price_eq, max_price_eq, min_eq_right (by norm_num),
      max_eq_right (by norm_num)]
    exact round2_fix 206.99 20699 (by norm_num)
  have hstrat : getPricingStrategy 0.7 (-50 / (100:ℚ)) = "Market Leadership" := by
    unfold getPricingStrategy
    rw [if_neg (by norm_num), if_pos (by norm_num)]
  rw [calculateOptimalPrice_eq scen7_base roomMultiplier_Standard scen7_dm hc
    scen5_sa hpsy hfin hstrat]
  have hr1 : round2 (100:ℚ) = 100 := round2_fix 100 10000 (by norm_num)
  have hr2 : round2 (1.2:ℚ) = 1.2 := round2_fix 1.2 120 (by norm_num)
  have hr3 : round2 (1.15:ℚ) = 1.15 := round2_fix 1.15 115 (by norm_num)
  have hr4 : round2 (1.5:ℚ) = 1.5 := round2_fix 1.5 150 (by norm_num)
  rw [hr1, hr2, hr3, hr4]

/-! ## The claims -/

/-- C1: the concrete scenario of the spec. On demand_confidence 0.78,
competition_price 180, season_factor 1.2, hotel type Resort, room type
Deluxe, calculate_optimal_price returns optimal price 332.99, base price
156, demand multiplier 1.28, season adjustment 1.64 and the strategy label
Market Leadership; the intermediate competition adjustment is exactly 66/65
(competition ratio 180/156 = 15/13), within 1/1000 of the 1.0154 quoted in
the spec (the returned field exposes it rounded to 1.02). -/
theorem C1_concrete_scenario :
    calculateOptimalPrice 0.78 180 1.2 "Resort" "Deluxe" =
      { optimal_price := 332.99, base_price := 156, demand_multiplier := 1.28,
        competition_adjustment := 1.02, season_adjustment := 1.64,
        room_multiplier := 1.3, pricing_strategy := "Market Leadership" } ∧
    competitionAdjustment (180 / basePrice "Resort" "Deluxe") = 66/65 ∧
    |(66/65 : ℚ) - 1.0154| < 1/1000 := by
  refine ⟨scen1_eval, ?_, ?_⟩
  · rw [scen1_base]
    exact scen1_ca
  · rw [show (66/65:ℚ) - 1.0154 = -(1/65000) by norm_num, abs_neg,
      abs_of_nonneg (by norm_num : (0:ℚ) ≤ 1/65000)]
    norm_num

/-- C2 counterexample: the demand multiplier evaluates to 2, not 2.25, at
demand_confidence 1, and it jumps from 1.3 at 0.8 to 1.525 at 0.81, so the
claimed value at 1 and the claimed value-continuity at 0.8 are both false
on the code. -/
theorem C2_counterexample :
    demandMultiplier 1 = 2 ∧ demandMultiplier 1 ≠ 2.25 ∧
    demandMultiplier 0.8 = 1.3 ∧ demandMultiplier 0.81 = 1.525 := by
  have h08 : demandMultiplier 0.8 = 1.3 := by
    unfold demandMultiplier
    rw [if_neg (by norm_num), if_pos (by norm_num)]
    norm_num
  have h081 : demandMultiplier 0.81 = 1.525 := by
    unfold demandMultiplier
    rw [if_pos (by norm_num)]
    norm_num
  exact ⟨scen5_dm, by rw [scen5_dm]; norm_num, h08, h081⟩

/-- C2 amended: the demand multiplier equals 0.7 at 0 and 2 (not 2.25) at 1;
it is value-continuous (indeed 1-Lipschitz) at the breakpoint 0.5, but at
the breakpoint 0.8 it is not: its value 1.3 at 0.8 is exceeded by at least
0.2 at every point above 0.8. -/
theorem C2_demand_multiplier_curve (x y : ℚ) (hx : |x - 1/2| ≤ 3/10)
    (hy : 4/5 < y) :
    demandMultiplier 0 = 7/10 ∧ demandMultiplier 1 = 2 ∧
    |demandMultiplier x - demandMultiplier (1/2)| ≤ |x - 1/2| ∧
    demandMultiplier (4/5) + 1/5 ≤ demandMultiplier y := by
  have hxa := abs_le.mp hx
  have hxu : x ≤ 4/5 := by linarith [hxa.2]
  have hdm0 : demandMultiplier 0 = 7/10 := by
    unfold demandMultiplier
    rw [if_neg (by norm_num), if_neg (by norm_num)]
    norm_num
  have hdmh : demandMultiplier (1/2) = 1 := by
    unfold demandMultiplier
    rw [if_neg (by norm_num), if_neg (by norm_num)]
    norm_num
  refine ⟨hdm0, scen5_dm, ?_, ?_⟩
  · rw [hdmh]
    rcases le_or_lt x (1/2) with hc | hc
    · have hval : demandMultiplier x = 0.7 + x * 0.6 := by
        unfold demandMultiplier
        rw [if_neg (not_lt.mpr (by linarith : x ≤ (0.8:ℚ))),
          if_neg (not_lt.mpr (by linarith : x ≤ (0.5:ℚ)))]
      rw [hval, abs_of_nonpos (by linarith), abs_of_nonpos (by linarith)]
      linarith
    · have hval : demandMultiplier x = 1.0 + (x - 0.5) * 1.0 := by
        unfold demandMultiplier
        rw [if_neg (not_lt.mpr (by linarith : x ≤ (0.8:ℚ))),
          if_pos (by linarith : (0.5:ℚ) < x)]
      rw [hval, abs_of_nonneg (by linarith), abs_of_nonneg (by linarith)]
      linarith
  · have h45 : demandMultiplier (4/5) = 1.3 := by
      unfold demandMultiplier
      rw [if_neg (by norm_num), if_pos (by norm_num)]
      norm_num
    have hyv : demandMultiplier y = 1.5 + (y - 0.8) * 2.5 := by
      unfold demandMultiplier
      rw [if_pos (by linarith : (0.8:ℚ) < y)]
    rw [h45, hyv]
    linarith

/-- Witness for the amended C2 theorem at x = 0.6, y = 0.9. -/
theorem C2_demand_multiplier_curve_witness :
    |(3/5 : ℚ) - 1/2| ≤ 3/10 ∧ (4/5 : ℚ) < 9/10 ∧
    (demandMultiplier 0 = 7/10 ∧ demandMultiplier 1 = 2 ∧
     |demandMultiplier (3/5) - demandMultiplier (1/2)| ≤ |(3/5 : ℚ) - 1/2| ∧
     demandMultiplier (4/5) + 1/5 ≤ demandMultiplier (9/10)) :=
  ⟨by rw [show (3/5:ℚ) - 1/2 = 1/10 by norm_num,
      abs_of_nonneg (by norm_num : (0:ℚ) ≤ 1/10)]; norm_num,
   by norm_num,
   C2_demand_multiplier_curve (3/5) (9/10)
     (by rw [show (3/5:ℚ) - 1/2 = 1/10 by norm_num,
        abs_of_nonneg (by norm_num : (0:ℚ) ≤ 1/10)]; norm_num)
     (by norm_num)⟩

/-- C3: for every input in the documented ranges the returned optimal price
lies in the clamp band, between min_price = 50 and max_price = 400,
whatever the product of the intermediate multipliers. -/
theorem C3_price_clamped (dc cp sf : ℚ) (ht rt : String) (h0 : 0 ≤ dc)
    (h1 : dc ≤ 1) (hcp : 0 < cp) (hsf : 0 ≤ sf) :
    min_price ≤ (calculateOptimalPrice dc cp sf ht rt).optimal_price ∧
    (calculateOptimalPrice dc cp sf ht rt).optimal_price ≤ max_price := by
  rw [optimal_price_def]
  set v := applyPsychologicalPricing (rawPrice dc cp sf ht rt) with hv
  constructor
  · have h50 : (((50:ℤ)) : ℚ) ≤ max min_price (min max_price v) := by
      rw [min_price_eq]
      push_cast
      exact le_max_left _ _
    have h := int_le_round2 h50
    rw [min_price_eq]
    exact_mod_cast h
  · have h400 : max min_price (min max_price v) ≤ (((400:ℤ)) : ℚ) := by
      rw [min_price_eq, max_price_eq]
      push_cast
      exact max_le (by norm_num) (min_le_left _ _)
    have h := round2_le_int h400
    rw [max_price_eq]
    exact_mod_cast h

/-- Witness for C3 at the concrete scenario input. -/
theorem C3_price_clamped_witness :
    (0:ℚ) ≤ 0.78 ∧ (0.78:ℚ) ≤ 1 ∧ (0:ℚ) < 180 ∧ (0:ℚ) ≤ 1.2 ∧
    (min_price ≤ (calculateOptimalPrice 0.78 180 1.2 "Resort" "Deluxe").optimal_price ∧
     (calculateOptimalPrice 0.78 180 1.2 "Resort" "Deluxe").optimal_price ≤ max_price) :=
  ⟨by norm_num, by norm_num, by norm_num, by norm_num,
    C3_price_clamped 0.78 180 1.2 "Resort" "Deluxe" (by norm_num) (by norm_num)
      (by norm_num) (by norm_num)⟩

/-- C4: with competition price, season factor, hotel type and room type
fixed, the returned optimal price is non-decreasing in demand_confidence on
the unit interval, through the demand-multiplier breakpoints 0.5 and 0.8,
the psychological rounding and the clamp. -/
theorem C4_monotone_in_demand (dc1 dc2 cp sf : ℚ) (ht rt : String)
    (h0 : 0 ≤ dc1) (h12 : dc1 ≤ dc2) (h1 : dc2 ≤ 1) (hcp : 0 < cp)
    (hsf : 0 ≤ sf) :
    (calculateOptimalPrice dc1 cp sf ht rt).optimal_price ≤
      (calculateOptimalPrice dc2 cp sf ht rt).optimal_price := by
  rw [optimal_price_def, optimal_price_def, min_price_eq, max_price_eq]
  apply round2_mono
  apply clamp_psych_mono
  unfold rawPrice
  have hdm := demandMultiplier_mono h12
  have hb0 : (0:ℚ) ≤ basePrice ht rt := by linarith [basePrice_ge ht rt]
  have hc0 : (0:ℚ) ≤ competitionAdjustment (cp / basePrice ht rt) := by
    linarith [(competitionAdjustment_bounds (cp / basePrice ht rt)).1]
  have hs0 : (0:ℚ) ≤ seasonAdjustment sf := by linarith [seasonAdjustment_ge hsf]
  exact mul_le_mul_of_nonneg_right
    (mul_le_mul_of_nonneg_right (mul_le_mul_of_nonneg_left hdm hb0) hc0) hs0

/-- Witness for C4 at demand_confidence 0.25 versus 0.75. -/
theorem C4_monotone_in_demand_witness :
    (0:ℚ) ≤ 1/4 ∧ (1/4:ℚ) ≤ 3/4 ∧ (3/4:ℚ) ≤ 1 ∧ (0:ℚ) < 100 ∧ (0:ℚ) ≤ 1 ∧
    (calculateOptimalPrice (1/4) 100 1 "City" "Standard").optimal_price ≤
      (calculateOptimalPrice (3/4) 100 1 "City" "Standard").optimal_price :=
  ⟨by norm_num, by norm_num, by norm_num, by norm_num, by norm_num,
    C4_monotone_in_demand (1/4) (3/4) 100 1 "City" "Standard" (by norm_num)
      (by norm_num) (by norm_num) (by norm_num) (by norm_num)⟩

/-- C5 counterexample: at demand_confidence 1, competition_price 100,
season_factor 1 and hotel type Resort, both the Suite and the Presidential
raw prices exceed the cap, both final prices clamp to 400, and the claimed
strict ordering between room types fails. -/
theorem C5_counterexample :
    ¬ ((calculateOptimalPrice 1 100 1 "Resort" "Suite").optimal_price <
        (calculateOptimalPrice 1 100 1 "Resort" "Presidential").optimal_price) ∧
    (calculateOptimalPrice 1 100 1 "Resort" "Suite").optimal_price = 400 ∧
    (calculateOptimalPrice 1 100 1 "Resort" "Presidential").optimal_price = 400 :=
  ⟨by rw [scen5_suite_price, scen5_pres_price]; norm_num,
   scen5_suite_price, scen5_pres_price⟩

/-- C5 amended: with the inputs in their documented ranges, and provided the
returned Presidential price has not been cut off by the 400 cap, the final
prices are strictly ordered by room type: Standard below Deluxe below Suite
below Presidential. -/
theorem C5_room_type_ordering (dc cp sf : ℚ) (ht : String) (h0 : 0 ≤ dc)
    (h1 : dc ≤ 1) (hcp : 0 < cp) (hsf : 0 ≤ sf)
    (hcap : (calculateOptimalPrice dc cp sf ht "Presidential").optimal_price < 400) :
    (calculateOptimalPrice dc cp sf ht "Standard").optimal_price <
      (calculateOptimalPrice dc cp sf ht "Deluxe").optimal_price ∧
    (calculateOptimalPrice dc cp sf ht "Deluxe").optimal_price <
      (calculateOptimalPrice dc cp sf ht "Suite").optimal_price ∧
    (calculateOptimalPrice dc cp sf ht "Suite").optimal_price <
      (calculateOptimalPrice dc cp sf ht "Presidential").optimal_price := by
  have hcapP : applyPsychologicalPricing (rawPrice dc cp sf ht "Presidential") < 400 := by
    by_contra hno
    rw [not_lt] at hno
    have h400 : (calculateOptimalPrice dc cp sf ht "Presidential").optimal_price = 400 := by
      rw [optimal_price_def]
      exact fin_cap hno
    rw [h400] at hcap
    exact lt_irrefl _ hcap
  have s3 := room_step h0 hsf (by rw [roomMultiplier_Suite]; norm_num)
    (by rw [roomMultiplier_Suite, roomMultiplier_Presidential]; norm_num) hcapP
  have s2 := room_step h0 hsf (by rw [roomMultiplier_Deluxe]; norm_num)
    (by rw [roomMultiplier_Deluxe, roomMultiplier_Suite]; norm_num) s3.2
  have s1 := room_step h0 hsf (by rw [roomMultiplier_Standard])
    (by rw [roomMultiplier_Standard, roomMultiplier_Deluxe]; norm_num) s2.2
  exact ⟨s1.1, s2.1, s3.1⟩

/-- Witness for the amended C5 theorem at demand_confidence 0.3,
competition_price 100, season_factor 1, hotel type City, where the
Presidential price 378.99 is below the cap. -/
theorem C5_room_type_ordering_witness :
    (0:ℚ) ≤ 0.3 ∧ (0.3:ℚ) ≤ 1 ∧ (0:ℚ) < 100 ∧ (0:ℚ) ≤ 1 ∧
    (calculateOptimalPrice 0.3 100 1 "City" "Presidential").optimal_price < 400 ∧
    ((calculateOptimalPrice 0.3 100 1 "City" "Standard").optimal_price <
       (calculateOptimalPrice 0.3 100 1 "City" "Deluxe").optimal_price ∧
     (calculateOptimalPrice 0.3 100 1 "City" "Deluxe").optimal_price <
       (calculateOptimalPrice 0.3 100 1 "City" "Suite").optimal_price ∧
     (calculateOptimalPrice 0.3 100 1 "City" "Suite").optimal_price <
       (calculateOptimalPrice 0.3 100 1 "City" "Presidential").optimal_price) :=
  ⟨by norm_num, by norm_num, by norm_num, by norm_num,
   by rw [scenW_pres_price]; norm_num,
   C5_room_type_ordering 0.3 100 1 "City" (by norm_num) (by norm_num)
     (by norm_num) (by norm_num) (by rw [scenW_pres_price]; norm_num)⟩

/-- C6 counterexample: on the raw price 205.7 the code returns 205.99
(Python round of 204.7 is 205, plus 0.99), while the rule claimed in the
spec, round the price down to the nearest integer, subtract 1, add 0.99,
would give 204.99. -/
theorem C6_counterexample :
    applyPsychologicalPricing 205.7 = 205.99 ∧
    (⌊(205.7:ℚ)⌋ : ℚ) - 1 + 0.99 = 204.99 ∧
    (205.99 : ℚ) ≠ 204.99 := by
  refine ⟨?_, ?_, by norm_num⟩
  · rw [psych_high_gt (by norm_num)
      (show ⌊(205.7:ℚ) - 1⌋ = 204 by rw [Int.floor_eq_iff] <;> norm_num)
      (by push_cast; norm_num)]
    push_cast
    norm_num
  · rw [show ⌊(205.7:ℚ)⌋ = 205 by rw [Int.floor_eq_iff] <;> norm_num]
    norm_num

/-- C6 amended: for a raw price of 100 or more (including the branch at 300
or more, which is identical) the code returns the Python half-to-even round
of price minus 1, plus 0.99, so the result always has fractional part 0.99;
a price in the band from 50 up to but excluding 100 becomes price minus
0.05 rounded to the nearest cent; a price below 50 is rounded to two
decimal places and otherwise unchanged. -/
theorem C6_psych_branches (p : ℚ) :
    (100 ≤ p → applyPsychologicalPricing p = (pyRound (p - 1) : ℚ) + 0.99 ∧
      ∃ n : ℤ, applyPsychologicalPricing p = (n : ℚ) + 0.99) ∧
    (50 ≤ p ∧ p < 100 → applyPsychologicalPricing p = round2 (p - 0.05)) ∧
    (p < 50 → applyPsychologicalPricing p = round2 p) := by
  refine ⟨fun h => ?_, fun h => psych_eq_mid h.1 h.2, fun h => psych_eq_low h⟩
  exact ⟨psych_frac h, ⟨pyRound (p - 1), psych_frac h⟩⟩

/-- Witness for the amended C6 theorem at the raw price 205.7. -/
theorem C6_psych_branches_witness :
    (100:ℚ) ≤ 205.7 ∧
    (applyPsychologicalPricing 205.7 = (pyRound ((205.7:ℚ) - 1) : ℚ) + 0.99 ∧
     ∃ n : ℤ, applyPsychologicalPricing 205.7 = (n : ℚ) + 0.99) :=
  ⟨by norm_num, (C6_psych_branches 205.7).1 (by norm_num)⟩

/-- C7: the code performs no input validation. Called with the invalid
competition price -50 (and likewise 0), calculate_optimal_price does not
fail: the competition ratio is finite (the base price is always positive),
falls into the below-0.8 branch with adjustment 1.15, and an ordinary price
record is returned, contradicting the InvalidInput failure the spec
requires. -/
theorem C7_no_invalid_input_error :
    calculateOptimalPrice 0.7 (-50) 1 "City" "Standard" =
      { optimal_price := 206.99, base_price := 100, demand_multiplier := 1.2,
        competition_adjustment := 1.15, season_adjustment := 1.5,
        room_multiplier := 1, pricing_strategy := "Market Leadership" } ∧
    (calculateOptimalPrice 0.7 0 1 "City" "Standard").competition_adjustment = 1.15 := by
  refine ⟨scen7_eval, ?_⟩
  rw [competition_adjustment_def, scen7_base]
  have hc : competitionAdjustment ((0:ℚ) / 100) = 1.15 := by
    unfold competitionAdjustment
    rw [if_pos (by norm_num)]
  rw [hc]
  exact round2_fix 1.15 115 (by norm_num)

/-- C8: estimate_occupancy computes exactly the claimed closed form, the
base occupancy times (1 plus the elasticity effect plus the demand effect),
clamped to the interval from 0.1 to 0.95, with base price 100 and price
elasticity -1.8; the default base_occupancy 0.7 of the Python signature is
the explicit third argument here. -/
theorem C8_estimate_occupancy (price demand_confidence base_occupancy : ℚ) :
    estimateOccupancy price demand_confidence base_occupancy =
      estimateOccupancySpec price demand_confidence base_occupancy ∧
    base_price = 100 ∧ price_elasticity = -1.8 :=
  ⟨rfl, rfl, rfl⟩

/-- C9: on the documented input ranges all four intermediate factors of
calculate_optimal_price, the room multiplier, the demand multiplier, the
competition adjustment and the season adjustment, are strictly positive. -/
theorem C9_positive_factors (dc cp sf : ℚ) (ht rt : String) (h0 : 0 ≤ dc)
    (h1 : dc ≤ 1) (hcp : 0 < cp) (hsf : 0 ≤ sf) :
    0 < roomMultiplier rt ∧ 0 < demandMultiplier dc ∧
    0 < competitionAdjustment (cp / basePrice ht rt) ∧
    0 < seasonAdjustment sf := by
  refine ⟨?_, ?_, ?_, ?_⟩
  · linarith [roomMultiplier_ge_one rt]
  · linarith [demandMultiplier_ge h0]
  · linarith [(competitionAdjustment_bounds (cp / basePrice ht rt)).1]
  · linarith [seasonAdjustment_ge hsf]

/-- Witness for C9 at the concrete scenario input. -/
theorem C9_positive_factors_witness :
    (0:ℚ) ≤ 0.78 ∧ (0.78:ℚ) ≤ 1 ∧ (0:ℚ) < 180 ∧ (0:ℚ) ≤ 1.2 ∧
    (0 < roomMultiplier "Deluxe" ∧ 0 < demandMultiplier 0.78 ∧
     0 < competitionAdjustment (180 / basePrice "Resort" "Deluxe") ∧
     0 < seasonAdjustment 1.2) :=
  ⟨by norm_num, by norm_num, by norm_num, by norm_num,
    C9_positive_factors 0.78 180 1.2 "Resort" "Deluxe" (by norm_num) (by norm_num)
      (by norm_num) (by norm_num)⟩

/-- C10: every numeric field of the returned record except room_multiplier
is the two-decimal rounding of the corresponding intermediate value, and
room_multiplier is the exact table value; consequently the returned optimal
price is in general not the product of the returned rounded factors, as the
concrete scenario of the spec already shows: 332.99 against
156 times 1.28 times 1.02 times 1.64 = 334.024704. -/
theorem C10_returned_fields_rounded (dc cp sf : ℚ) (ht rt : String) :
    (calculateOptimalPrice dc cp sf ht rt).base_price =
      round2 (basePrice ht rt) ∧
    (calculateOptimalPrice dc cp sf ht rt).demand_multiplier =
      round2 (demandMultiplier dc) ∧
    (calculateOptimalPrice dc cp sf ht rt).competition_adjustment =
      round2 (competitionAdjustment (cp / basePrice ht rt)) ∧
    (calculateOptimalPrice dc cp sf ht rt).season_adjustment =
      round2 (seasonAdjustment sf) ∧
    (calculateOptimalPrice dc cp sf ht rt).optimal_price =
      round2 (max min_price (min max_price
        (applyPsychologicalPricing (rawPrice dc cp sf ht rt)))) ∧
    (calculateOptimalPrice dc cp sf ht rt).room_multiplier = roomMultiplier rt ∧
    (calculateOptimalPrice 0.78 180 1.2 "Resort" "Deluxe").optimal_price ≠
      (calculateOptimalPrice 0.78 180 1.2 "Resort" "Deluxe").base_price *
        (calculateOptimalPrice 0.78 180 1.2 "Resort" "Deluxe").demand_multiplier *
        (calculateOptimalPrice 0.78 180 1.2 "Resort" "Deluxe").competition_adjustment *
        (calculateOptimalPrice 0.78 180 1.2 "Resort" "Deluxe").season_adjustment := by
  refine ⟨rfl, rfl, rfl, rfl, rfl, rfl, ?_⟩
  rw [scen1_eval]
  show (332.99:ℚ) ≠ 156 * 1.28 * 1.02 * 1.64
  norm_num

end SmartStay
